import Mathlib

/-!
Verification development for the Kanban task-board service layer.

The definitions below are a shallow embedding of the TypeScript service
code (`apps/api/src/services/boardService.ts`, `taskService.ts`, the
`authorize` middleware and `userService.searchUsers`).  Database tables
are embedded as Lean lists of rows; every Prisma query is translated to
the corresponding pure list operation:

* `findUnique` / `findFirst` become `List.find?`;
* `updateMany` with a `where` filter becomes `List.map` guarded by the
  filter condition;
* `update` by primary key becomes `List.map` guarded by the key;
* `delete` becomes `List.filter`;
* `create` appends a row whose database-generated id is passed in as an
  explicit parameter;
* a thrown `createError` becomes an `Except.error` carrying the same
  status / code / message, which also models that the surrounding
  transaction performs no write.

String ids of the real schema are embedded as `Nat` (they are only ever
compared for equality).  Activity-log writes are not modelled: no claim
mentions them and they touch no other table.
-/

namespace Kanban

/-- Mirror of `createError` in `middleware/errorHandler.ts`: a typed
error with HTTP status, machine code and message. -/
structure ApiError where
  status : Nat
  code : String
  message : String
deriving DecidableEq

/-- Constructor mirroring `createError(status, code, message)`. -/
def createError (status : Nat) (code message : String) : ApiError :=
  ⟨status, code, message⟩

/-- Row of the `profiles` table. -/
structure Profile where
  id : Nat
  email : String
  first_name : String
  last_name : String
  is_active : Bool
deriving DecidableEq

/-- Row of the `boards` table. -/
structure Board where
  id : Nat
  name : String
  description : Option String
  color : String
  owner_id : Nat
deriving DecidableEq

/-- Row of the `board_members` table: `(board, user, role)` with a
row id used for deletion. -/
structure BoardMember where
  id : Nat
  board_id : Nat
  user_id : Nat
  role : String
deriving DecidableEq

/-- Row of the `lists` table.  (Named `BoardList` because `List` is
taken by Lean.) -/
structure BoardList where
  id : Nat
  board_id : Nat
  name : String
  position : Int
deriving DecidableEq

/-- Row of the `tasks` table (fields irrelevant to the claims - title,
priority, due date, creator - are collapsed into `title`). -/
structure Task where
  id : Nat
  list_id : Nat
  title : String
  position : Int
deriving DecidableEq

/-- Row of the `task_assignees` table: `(task, user)` with a row id
used for deletion. -/
structure TaskAssignee where
  id : Nat
  task_id : Nat
  user_id : Nat
deriving DecidableEq

/-- The relational store: one list of rows per table. -/
structure DB where
  profiles : List Profile
  boards : List Board
  boardMembers : List BoardMember
  lists : List BoardList
  tasks : List Task
  taskAssignees : List TaskAssignee
deriving DecidableEq

-- ── Board service (`boardService.ts`) ────────────────────────────────

/-- Input body of `POST /api/boards`. -/
structure CreateBoardData where
  name : String
  description : Option String
  color : Option String
deriving DecidableEq

/-- Mirror of `boardService.createBoard`: creates the board row plus the
three default lists `To Do` / `In Progress` / `Done` at positions
0, 1, 2.  `boardId`, `lid0`, `lid1`, `lid2` are the ids the database
generates for the new rows.  Returns the updated store, the new board
and the created lists (that is, the `include: lists` payload). -/
def createBoard (db : DB) (userId : Nat) (data : CreateBoardData)
    (boardId lid0 lid1 lid2 : Nat) : DB × Board × List BoardList :=
  let board : Board :=
    { id := boardId, name := data.name, description := data.description,
      color := data.color.getD ("#4472C4"), owner_id := userId }
  let newLists : List BoardList :=
    [ { id := lid0, board_id := boardId, name := "To Do", position := 0 },
      { id := lid1, board_id := boardId, name := "In Progress", position := 1 },
      { id := lid2, board_id := boardId, name := "Done", position := 2 } ]
  ({ db with boards := db.boards ++ [board], lists := db.lists ++ newLists },
   board, newLists)

/-- Tail of `boardService.addMember` after the permission gate: target
profile must exist, must not be the owner, then the member row is
created (`newId` is the database-generated row id). -/
def addMemberChecked (db : DB) (board : Board) (newMemberId : Nat)
    (role : String) (newId : Nat) : Except ApiError DB :=
  match db.profiles.find? (fun p => p.id == newMemberId) with
  | none => .error (createError 404 "NOT_FOUND" "User not found")
  | some _ =>
    if newMemberId = board.owner_id then
      .error (createError 400 "BAD_REQUEST" "Cannot add the board owner as a member")
    else
      .ok { db with boardMembers :=
              db.boardMembers ++ [⟨newId, board.id, newMemberId, role⟩] }

/-- Mirror of `boardService.addMember`: board must exist; only the owner
or an admin member may add; then `addMemberChecked`. -/
def addMember (db : DB) (boardId userId newMemberId : Nat) (role : String)
    (newId : Nat) : Except ApiError DB :=
  match db.boards.find? (fun b => b.id == boardId) with
  | none => .error (createError 404 "NOT_FOUND" "Board not found")
  | some board =>
    if board.owner_id ≠ userId then
      match db.boardMembers.find? (fun m => m.board_id == boardId && m.user_id == userId) with
      | none => .error (createError 403 "FORBIDDEN" "Only the owner or admin can add members")
      | some requester =>
        if requester.role ≠ "admin" then
          .error (createError 403 "FORBIDDEN" "Only the owner or admin can add members")
        else addMemberChecked db board newMemberId role newId
    else addMemberChecked db board newMemberId role newId

/-- Tail of `boardService.removeMember` after the permission gate: the
owner cannot be removed; the member row must exist; then it is deleted
by row id. -/
def removeMemberChecked (db : DB) (board : Board) (targetUserId : Nat) :
    Except ApiError DB :=
  if targetUserId = board.owner_id then
    .error (createError 400 "BAD_REQUEST" "Cannot remove the board owner")
  else
    match db.boardMembers.find? (fun m => m.board_id == board.id && m.user_id == targetUserId) with
    | none => .error (createError 404 "NOT_FOUND" "Member not found")
    | some member =>
      .ok { db with boardMembers := db.boardMembers.filter (fun m => m.id != member.id) }

/-- Mirror of `boardService.removeMember`: board must exist; the owner
may remove anyone, a user may remove themselves, otherwise the caller
must be an admin member; then `removeMemberChecked`. -/
def removeMember (db : DB) (boardId userId targetUserId : Nat) :
    Except ApiError DB :=
  match db.boards.find? (fun b => b.id == boardId) with
  | none => .error (createError 404 "NOT_FOUND" "Board not found")
  | some board =>
    if board.owner_id ≠ userId ∧ userId ≠ targetUserId then
      match db.boardMembers.find? (fun m => m.board_id == boardId && m.user_id == userId) with
      | none => .error (createError 403 "FORBIDDEN" "Insufficient permissions to remove members")
      | some requester =>
        if requester.role ≠ "admin" then
          .error (createError 403 "FORBIDDEN" "Insufficient permissions to remove members")
        else removeMemberChecked db board targetUserId
    else removeMemberChecked db board targetUserId

-- ── List service (`boardService.ts`, second export) ──────────────────

/-- Mirror of the `(last?.position ?? -1) + 1` next-position computation
used by `listService.createList` and `taskService.createTask` (the code
reads the maximal position via `orderBy: position desc`). -/
def nextPosition (ps : List Int) : Int :=
  ps.foldl max (-1) + 1

/-- Mirror of `listService.createList`: board must exist; the new list is
appended at `max(position) + 1` within the board. -/
def createList (db : DB) (boardId : Nat) (name : String) (newId : Nat) :
    Except ApiError (DB × BoardList) :=
  match db.boards.find? (fun b => b.id == boardId) with
  | none => .error (createError 404 "NOT_FOUND" "Board not found")
  | some _ =>
    let pos := nextPosition ((db.lists.filter (fun l => l.board_id == boardId)).map
      (fun l => l.position))
    let l : BoardList := { id := newId, board_id := boardId, name := name, position := pos }
    .ok ({ db with lists := db.lists ++ [l] }, l)

/-- Input body of `PUT /lists/:listId`. -/
structure UpdateListData where
  name : Option String
  position : Option Int
deriving DecidableEq

/-- Mirror of `listService.updateList`: if a position is supplied and
differs from the current one, siblings between the old and new position
are shifted by one (decrement when moving down the order, increment when
moving up) and the list is placed at the requested position; otherwise
only the name is updated. -/
def updateList (db : DB) (listId : Nat) (data : UpdateListData) :
    Except ApiError DB :=
  match db.lists.find? (fun l => l.id == listId) with
  | none => .error (createError 404 "NOT_FOUND" "List not found")
  | some l =>
    match data.position with
    | some newPos =>
      if newPos ≠ l.position then
        let ls1 :=
          if newPos > l.position then
            db.lists.map (fun x =>
              if x.board_id = l.board_id ∧ l.position < x.position ∧
                  x.position ≤ newPos ∧ x.id ≠ listId then
                { x with position := x.position - 1 }
              else x)
          else
            db.lists.map (fun x =>
              if x.board_id = l.board_id ∧ newPos ≤ x.position ∧
                  x.position < l.position ∧ x.id ≠ listId then
                { x with position := x.position + 1 }
              else x)
        let ls2 := ls1.map (fun x =>
          if x.id = listId then
            { x with name := data.name.getD x.name, position := newPos }
          else x)
        .ok { db with lists := ls2 }
      else
        .ok { db with lists := db.lists.map (fun x =>
          if x.id = listId then { x with name := data.name.getD x.name } else x) }
    | none =>
      .ok { db with lists := db.lists.map (fun x =>
        if x.id = listId then { x with name := data.name.getD x.name } else x) }

/-- Mirror of `listService.deleteList`: the list is deleted (its tasks
cascade away), then every list of the same board with a greater position
is decremented by one. -/
def deleteList (db : DB) (listId : Nat) : Except ApiError DB :=
  match db.lists.find? (fun l => l.id == listId) with
  | none => .error (createError 404 "NOT_FOUND" "List not found")
  | some l =>
    .ok { db with
      lists := (db.lists.filter (fun x => x.id != listId)).map (fun x =>
        if x.board_id = l.board_id ∧ l.position < x.position then
          { x with position := x.position - 1 }
        else x),
      tasks := db.tasks.filter (fun t => t.list_id != listId) }

-- ── Task service (`taskService.ts`) ──────────────────────────────────

/-- Mirror of `taskService.createTask`: the list must exist; the new
task is appended at `max(position) + 1` within the list. -/
def createTask (db : DB) (listId : Nat) (title : String) (newId : Nat) :
    Except ApiError (DB × Task) :=
  match db.lists.find? (fun l => l.id == listId) with
  | none => .error (createError 404 "NOT_FOUND" "List not found")
  | some _ =>
    let pos := nextPosition ((db.tasks.filter (fun t => t.list_id == listId)).map
      (fun t => t.position))
    let t : Task := { id := newId, list_id := listId, title := title, position := pos }
    .ok ({ db with tasks := db.tasks ++ [t] }, t)

/-- Mirror of `taskService.deleteTask`: the task must exist, then the
row is deleted (assignee rows cascade away).  Note that - unlike
`deleteList` - the code performs no position update on the remaining
tasks of the list. -/
def deleteTask (db : DB) (taskId : Nat) : Except ApiError DB :=
  match db.tasks.find? (fun t => t.id == taskId) with
  | none => .error (createError 404 "NOT_FOUND" "Task not found")
  | some _ =>
    .ok { db with
      tasks := db.tasks.filter (fun t => t.id != taskId),
      taskAssignees := db.taskAssignees.filter (fun a => a.task_id != taskId) }

/-- Input body of `PUT /tasks/:taskId/move`. -/
structure MoveTaskData where
  list_id : Nat
  position : Int
deriving DecidableEq

/-- Mirror of `taskService.moveTask`.  The task and the target list must
exist and lie on the same board (the source list is resolved by the
`include: list` join of the task query; the schema's foreign key makes
it total, so the impossible missing case is mapped to a 500).  Within
one list the affected range is shifted; across lists the source list
closes the gap above the old position and the target list makes room at
and above the new position; finally the task row itself is updated. -/
def moveTask (db : DB) (taskId : Nat) (data : MoveTaskData) :
    Except ApiError DB :=
  match db.tasks.find? (fun t => t.id == taskId) with
  | none => .error (createError 404 "NOT_FOUND" "Task not found")
  | some task =>
    match db.lists.find? (fun l => l.id == task.list_id) with
    | none => .error (createError 500 "INTERNAL_ERROR" "Task has no list")
    | some srcList =>
      match db.lists.find? (fun l => l.id == data.list_id) with
      | none => .error (createError 404 "NOT_FOUND" "Target list not found")
      | some targetList =>
        if targetList.board_id ≠ srcList.board_id then
          .error (createError 400 "BAD_REQUEST" "Cannot move task to a list on a different board")
        else
          let ts1 :=
            if task.list_id ≠ data.list_id then
              db.tasks.map (fun t =>
                if t.list_id = task.list_id ∧ task.position < t.position then
                  { t with position := t.position - 1 }
                else t)
            else if data.position > task.position then
              db.tasks.map (fun t =>
                if t.list_id = task.list_id ∧ task.position < t.position ∧
                    t.position ≤ data.position ∧ t.id ≠ taskId then
                  { t with position := t.position - 1 }
                else t)
            else if data.position < task.position then
              db.tasks.map (fun t =>
                if t.list_id = task.list_id ∧ data.position ≤ t.position ∧
                    t.position < task.position ∧ t.id ≠ taskId then
                  { t with position := t.position + 1 }
                else t)
            else db.tasks
          let ts2 :=
            if task.list_id ≠ data.list_id then
              ts1.map (fun t =>
                if t.list_id = data.list_id ∧ data.position ≤ t.position then
                  { t with position := t.position + 1 }
                else t)
            else ts1
          let ts3 := ts2.map (fun t =>
            if t.id = taskId then
              { t with list_id := data.list_id, position := data.position }
            else t)
          .ok { db with tasks := ts3 }

/-- Tail of `taskService.assignUser` after the membership gate: a second
assignment of the same `(task, user)` pair is a 409 CONFLICT, otherwise
the assignment row is created (`newId` is its database id). -/
def assignUserChecked (db : DB) (taskId assigneeId newId : Nat) :
    Except ApiError DB :=
  match db.taskAssignees.find? (fun a => a.task_id == taskId && a.user_id == assigneeId) with
  | some _ => .error (createError 409 "CONFLICT" "User is already assigned to this task")
  | none =>
    .ok { db with taskAssignees := db.taskAssignees ++ [⟨newId, taskId, assigneeId⟩] }

/-- Mirror of `taskService.assignUser`: the task must exist; the board
is resolved through the task's list (the code's non-null `board!`
assertion is mapped to a 500); unless the assignee is the board owner
they must hold a member row, else 400 BAD_REQUEST; then
`assignUserChecked`. -/
def assignUser (db : DB) (taskId assigneeId newId : Nat) :
    Except ApiError DB :=
  match db.tasks.find? (fun t => t.id == taskId) with
  | none => .error (createError 404 "NOT_FOUND" "Task not found")
  | some task =>
    match db.lists.find? (fun l => l.id == task.list_id) with
    | none => .error (createError 500 "INTERNAL_ERROR" "Task has no list")
    | some lst =>
      match db.boards.find? (fun b => b.id == lst.board_id) with
      | none => .error (createError 500 "INTERNAL_ERROR" "List has no board")
      | some board =>
        if board.owner_id ≠ assigneeId then
          match db.boardMembers.find? (fun m => m.board_id == lst.board_id && m.user_id == assigneeId) with
          | none => .error (createError 400 "BAD_REQUEST" "User is not a member of this board")
          | some _ => assignUserChecked db taskId assigneeId newId
        else assignUserChecked db taskId assigneeId newId

/-- Mirror of `taskService.unassignUser`: the task must exist; a missing
`(task, user)` assignment row is a 404 NOT_FOUND; otherwise the row is
deleted by its id. -/
def unassignUser (db : DB) (taskId assigneeId : Nat) : Except ApiError DB :=
  match db.tasks.find? (fun t => t.id == taskId) with
  | none => .error (createError 404 "NOT_FOUND" "Task not found")
  | some _ =>
    match db.taskAssignees.find? (fun a => a.task_id == taskId && a.user_id == assigneeId) with
    | none => .error (createError 404 "NOT_FOUND" "Assignment not found")
    | some assignment =>
      .ok { db with taskAssignees := db.taskAssignees.filter (fun a => a.id != assignment.id) }

-- ── Authorization gate (`middleware/authorize.ts`) ───────────────────

/-- Decision of the authorization middleware: either a `next(error)`
carrying an `ApiError`, or a plain `next()` letting the request through. -/
inductive AuthDecision where
  | err : ApiError → AuthDecision
  | permitted : AuthDecision
deriving DecidableEq

/-- Mirror of the `authorize(...allowedRoles)` middleware: missing ids
are a 400; a missing board is a 404; the board owner always passes; a
caller without a member row is a 403; a member whose role is outside a
non-empty `allowedRoles` is a 403; otherwise the request passes. -/
def authorize (db : DB) (allowedRoles : List String)
    (boardId userId : Option Nat) : AuthDecision :=
  match boardId, userId with
  | some bId, some uId =>
    match db.boards.find? (fun b => b.id == bId) with
    | none => .err (createError 404 "NOT_FOUND" "Board not found")
    | some board =>
      if board.owner_id = uId then .permitted
      else
        match db.boardMembers.find? (fun m => m.board_id == bId && m.user_id == uId) with
        | none => .err (createError 403 "FORBIDDEN" "You are not a member of this board")
        | some member =>
          if allowedRoles ≠ [] ∧ member.role ∉ allowedRoles then
            .err (createError 403 "FORBIDDEN"
              ("Requires one of: " ++ String.intercalate (", ") allowedRoles))
          else .permitted
  | _, _ => .err (createError 400 "BAD_REQUEST" "Missing board ID or user ID")

-- ── User search (`userService.searchUsers`) ──────────────────────────

/-- Character codes of a string.  String text is handled as code-point
lists so that every operation below is a plain structural computation. -/
def codes (s : String) : List Nat :=
  s.toList.map Char.toNat

/-- ASCII model of `toLowerCase` on a single code point. -/
def asciiLower (n : Nat) : Nat :=
  if 65 ≤ n ∧ n ≤ 90 then n + 32 else n

/-- Whitespace test used by the model of `String.prototype.trim`. -/
def isSpaceCode (n : Nat) : Bool :=
  n == 32 || n == 9 || n == 10 || n == 11 || n == 12 || n == 13

/-- Model of `String.prototype.trim`: strip whitespace from both ends. -/
def trimCodes (cs : List Nat) : List Nat :=
  ((cs.dropWhile isSpaceCode).reverse.dropWhile isSpaceCode).reverse

/-- Lower-cased code points of a string. -/
def lowerCodes (s : String) : List Nat :=
  (codes s).map asciiLower

/-- Substring containment, the model of SQL `contains` /
`String.prototype.includes`. -/
def containsCodes (haystack needle : List Nat) : Bool :=
  haystack.tails.any (fun t => needle.isPrefixOf t)

/-- Mirror of the `OR` filter of `searchUsers`: the (already lower-cased
and trimmed) query must occur in the lower-cased email, first name or
last name.  This models Prisma `contains` with `mode: "insensitive"`
applied to the lower-cased query. -/
def matchesQuery (q : List Nat) (p : Profile) : Bool :=
  containsCodes (lowerCodes p.email) q ||
  containsCodes (lowerCodes p.first_name) q ||
  containsCodes (lowerCodes p.last_name) q

/-- Lexicographic comparison of code-point lists, modelling the
`orderBy: first_name asc` collation. -/
def lexLe : List Nat → List Nat → Bool
  | [], _ => true
  | _ :: _, [] => false
  | a :: as, b :: bs => a < b || (a == b && lexLe as bs)

/-- Insert into a sorted list, keeping earlier elements first on ties. -/
def insertBy (le : α → α → Bool) (a : α) : List α → List α
  | [] => [a]
  | b :: bs => if le a b then a :: b :: bs else b :: insertBy le a bs

/-- Insertion sort used as the model of the database `orderBy`. -/
def sortBy (le : α → α → Bool) : List α → List α
  | [] => []
  | a :: as => insertBy le a (sortBy le as)

/-- Mirror of `userService.searchUsers`: trim and lower-case the query,
keep the active profiles other than the requester that match it on
email, first or last name, order by first name, and take `lim` rows
(the route defaults `lim` to 10). -/
def searchUsers (db : DB) (query : String) (requesterId : Nat) (lim : Nat) :
    List Profile :=
  let q := (trimCodes (codes query)).map asciiLower
  (sortBy (fun a b => lexLe (codes a.first_name) (codes b.first_name))
    (db.profiles.filter (fun p => p.id != requesterId && p.is_active && matchesQuery q p))).take lim

-- ── Spec-side transformation descriptions ────────────────────────────

/-- Transformation of the list table that the spec describes for a
same-board reorder of list `listId` from position `old` to `newPos`:
the moved list lands on `newPos`; when `old < newPos` the siblings
strictly between them (inclusive of `newPos`) step down by one; when
`newPos < old` the siblings in `[newPos, old)` step up by one; every
other list is untouched. -/
def specShiftList (listId boardId : Nat) (old newPos : Int)
    (x : BoardList) : BoardList :=
  if x.id = listId then { x with position := newPos }
  else if x.board_id = boardId ∧ old < x.position ∧ x.position ≤ newPos then
    { x with position := x.position - 1 }
  else if x.board_id = boardId ∧ newPos ≤ x.position ∧ x.position < old then
    { x with position := x.position + 1 }
  else x

/-- Transformation of the task table that the spec describes for a
same-list move of task `taskId` from position `old` to `newPos`. -/
def specShiftTask (taskId listId : Nat) (old newPos : Int)
    (t : Task) : Task :=
  if t.id = taskId then { t with list_id := listId, position := newPos }
  else if t.list_id = listId ∧ old < t.position ∧ t.position ≤ newPos then
    { t with position := t.position - 1 }
  else if t.list_id = listId ∧ newPos ≤ t.position ∧ t.position < old then
    { t with position := t.position + 1 }
  else t

/-- Transformation of the task table that the spec describes for a move
of task `taskId` from position `old` of list `srcId` to position
`newPos` of a different list `tgtId`: source siblings above `old` step
down, target siblings at or above `newPos` step up, the task lands in
the target list at `newPos`, and everything else is untouched. -/
def specCrossMove (taskId srcId tgtId : Nat) (old newPos : Int)
    (t : Task) : Task :=
  if t.id = taskId then { t with list_id := tgtId, position := newPos }
  else if t.list_id = srcId ∧ old < t.position then
    { t with position := t.position - 1 }
  else if t.list_id = tgtId ∧ newPos ≤ t.position then
    { t with position := t.position + 1 }
  else t

/-- The dense position range `[0, 1, ..., n-1]` as integers. -/
def rangeInt (n : Nat) : List Int :=
  (List.range n).map (fun k => (k : Int))

/-- Gap-closing shift on a single position: positions above `old` step
down by one. -/
def shiftDown (old p : Int) : Int :=
  if old < p then p - 1 else p

/-- Positions of the tasks of list `listId`, in table order. -/
def taskPositionsInList (db : DB) (listId : Nat) : List Int :=
  (db.tasks.filter (fun t => t.list_id == listId)).map (fun t => t.position)

/-- Positions of the lists of board `boardId`, in table order. -/
def listPositionsInBoard (db : DB) (boardId : Nat) : List Int :=
  (db.lists.filter (fun l => l.board_id == boardId)).map (fun l => l.position)

-- ── A concrete store used to evaluate the operations ─────────────────

/-- Concrete store: board 1 is owned by user 1, with an admin member 2
and an editor member 3; user 4 is a stranger and user 5 exists only as
a search target.  Board 1 carries the three default lists; list 4
belongs to the second board.  List 1 holds tasks 10, 11, 12 at dense
positions 0, 1, 2; list 2 holds tasks 20, 21 at 0, 1.  Task 10 is
assigned to user 2. -/
def dbW : DB :=
  { profiles :=
      [ ⟨1, "olivia@example.com", "Olivia", "Owner", true⟩,
        ⟨2, "adam@example.com", "Adam", "Admin", true⟩,
        ⟨3, "eve@example.com", "Eve", "Editor", true⟩,
        ⟨4, "sam@example.com", "Sam", "Stranger", true⟩,
        ⟨5, "alice@example.com", "Alice", "Johnson", true⟩ ],
    boards :=
      [ ⟨1, "Sprint", none, "#4472C4", 1⟩,
        ⟨2, "Backlog", none, "#4472C4", 1⟩ ],
    boardMembers :=
      [ ⟨1, 1, 2, "admin"⟩,
        ⟨2, 1, 3, "editor"⟩ ],
    lists :=
      [ ⟨1, 1, "To Do", 0⟩,
        ⟨2, 1, "In Progress", 1⟩,
        ⟨3, 1, "Done", 2⟩,
        ⟨4, 2, "Other", 0⟩ ],
    tasks :=
      [ ⟨10, 1, "a", 0⟩,
        ⟨11, 1, "b", 1⟩,
        ⟨12, 1, "c", 2⟩,
        ⟨20, 2, "d", 0⟩,
        ⟨21, 2, "e", 1⟩ ],
    taskAssignees :=
      [ ⟨1, 10, 2⟩ ] }

-- ── Theorems ─────────────────────────────────────────────────────────

/-- C6: every successful board creation yields exactly 3 lists, named
"To Do", "In Progress" and "Done", at positions 0, 1 and 2. -/
theorem createBoard_three_default_lists (db : DB) (userId : Nat)
    (data : CreateBoardData) (boardId lid0 lid1 lid2 : Nat) :
    ((createBoard db userId data boardId lid0 lid1 lid2).2.2).map
        (fun l => (l.name, l.position)) =
      [("To Do", 0), ("In Progress", 1), ("Done", 2)] ∧
    ((createBoard db userId data boardId lid0 lid1 lid2).2.2).length = 3 :=
  ⟨rfl, rfl⟩

/-- C5: the authorization gate returns NOT_FOUND for a missing board,
always permits the board owner, rejects a non-member with FORBIDDEN,
rejects a member whose role is outside a non-empty `requiredRoles` with
FORBIDDEN, and permits every remaining member. -/
theorem authorize_gate_cases (db : DB) (roles : List String) (bId uId : Nat) :
    (db.boards.find? (fun b => b.id == bId) = none →
      authorize db roles (some bId) (some uId) =
        .err (createError 404 "NOT_FOUND" "Board not found")) ∧
    (∀ board, db.boards.find? (fun b => b.id == bId) = some board →
      (board.owner_id = uId →
        authorize db roles (some bId) (some uId) = .permitted) ∧
      (board.owner_id ≠ uId →
        db.boardMembers.find? (fun m => m.board_id == bId && m.user_id == uId) = none →
        authorize db roles (some bId) (some uId) =
          .err (createError 403 "FORBIDDEN" "You are not a member of this board")) ∧
      (∀ m, board.owner_id ≠ uId →
        db.boardMembers.find? (fun m => m.board_id == bId && m.user_id == uId) = some m →
        roles ≠ [] → m.role ∉ roles →
        authorize db roles (some bId) (some uId) =
          .err (createError 403 "FORBIDDEN"
            ("Requires one of: " ++ String.intercalate (", ") roles))) ∧
      (∀ m, board.owner_id ≠ uId →
        db.boardMembers.find? (fun m => m.board_id == bId && m.user_id == uId) = some m →
        (roles = [] ∨ m.role ∈ roles) →
        authorize db roles (some bId) (some uId) = .permitted)) := by
  constructor
  · intro h
    simp [authorize, h]
  · intro board hb
    refine ⟨?_, ?_, ?_, ?_⟩
    · intro hown
      simp [authorize, hb, hown]
    · intro hown hm
      simp [authorize, hb, hown, hm]
    · intro m hown hm hne hnotin
      simp [authorize, hb, hown, hm, hne, hnotin]
    · intro m hown hm hor
      rcases hor with h | h <;> simp [authorize, hb, hown, hm, h]

/-- Witness for C5 on the concrete store: missing board 99, owner 1,
stranger 4, editor 3 against an admin-only gate, and editor 3 against
an unrestricted gate. -/
theorem authorize_gate_cases_witness :
    authorize dbW ["admin"] (some 99) (some 1) =
      .err (createError 404 "NOT_FOUND" "Board not found") ∧
    authorize dbW ["admin"] (some 1) (some 1) = .permitted ∧
    authorize dbW ["admin"] (some 1) (some 4) =
      .err (createError 403 "FORBIDDEN" "You are not a member of this board") ∧
    authorize dbW ["admin"] (some 1) (some 3) =
      .err (createError 403 "FORBIDDEN"
        ("Requires one of: " ++ String.intercalate (", ") ["admin"])) ∧
    authorize dbW [] (some 1) (some 3) = .permitted :=
  ⟨(authorize_gate_cases dbW ["admin"] 99 1).1 rfl,
   ((authorize_gate_cases dbW ["admin"] 1 1).2 ⟨1, "Sprint", none, "#4472C4", 1⟩ rfl).1 rfl,
   (((authorize_gate_cases dbW ["admin"] 1 4).2 ⟨1, "Sprint", none, "#4472C4", 1⟩ rfl).2.1
     (by decide) rfl),
   ((((authorize_gate_cases dbW ["admin"] 1 3).2 ⟨1, "Sprint", none, "#4472C4", 1⟩ rfl).2.2.1)
     ⟨2, 1, 3, "editor"⟩ (by decide) rfl (by decide) (by decide)),
   ((((authorize_gate_cases dbW [] 1 3).2 ⟨1, "Sprint", none, "#4472C4", 1⟩ rfl).2.2.2)
     ⟨2, 1, 3, "editor"⟩ (by decide) rfl (Or.inl rfl))⟩

/-- C10: moving a task towards an existing list of a different board is
rejected with 400 BAD_REQUEST before any position update runs (the
error is raised ahead of the transaction, so no task changes). -/
theorem moveTask_cross_board_rejected (db : DB) (taskId : Nat) (task : Task)
    (srcl tgtl : BoardList) (data : MoveTaskData)
    (hfind : db.tasks.find? (fun t => t.id == taskId) = some task)
    (hsrc : db.lists.find? (fun l => l.id == task.list_id) = some srcl)
    (htgt : db.lists.find? (fun l => l.id == data.list_id) = some tgtl)
    (hdiff : tgtl.board_id ≠ srcl.board_id) :
    moveTask db taskId data =
      .error (createError 400 "BAD_REQUEST"
        "Cannot move task to a list on a different board") := by
  simp [moveTask, hfind, hsrc, htgt, hdiff]

/-- Witness for C10: moving task 10 (board 1) towards list 4 (board 2). -/
theorem moveTask_cross_board_rejected_witness :
    moveTask dbW 10 ⟨4, 0⟩ =
      .error (createError 400 "BAD_REQUEST"
        "Cannot move task to a list on a different board") :=
  moveTask_cross_board_rejected dbW 10 ⟨10, 1, "a", 0⟩ ⟨1, 1, "To Do", 0⟩
    ⟨4, 2, "Other", 0⟩ ⟨4, 0⟩ rfl rfl rfl (by decide)

/-- C2 (code-bug exhibit): deleting task 11 - position 1 of list 1,
which holds positions 0, 1, 2 - leaves the remaining positions [0, 2]
untouched, whereas the claimed decrement of the greater sibling would
produce [0, 1]. -/
theorem deleteTask_does_not_close_gap :
    (deleteTask dbW 11).map (fun db => taskPositionsInList db 1) = .ok [0, 2] ∧
    ((0 : Int) :: [2] ≠ [0, 1]) :=
  ⟨rfl, by decide⟩

/-- C1 (code-bug exhibit): list 1 is dense (positions 0, 1, 2) and
`deleteTask` of task 10 at position 0 leaves positions [1, 2] for the
2 remaining siblings, which is not the dense range [0, 1]. -/
theorem deleteTask_breaks_density :
    (deleteTask dbW 10).map (fun db => taskPositionsInList db 1) = .ok [1, 2] ∧
    ¬ List.Perm [(1 : Int), 2] (rangeInt 2) :=
  ⟨rfl, by decide⟩

/-- C7: assigning requires the assignee to be the board owner or a
member (else 400 BAD_REQUEST and no assignment row is created),
assigning an already-assigned pair is a 409 CONFLICT, and unassigning a
missing pair is a 404 NOT_FOUND; the error outcomes perform no write. -/
theorem assign_unassign_guards (db : DB) (taskId assigneeId newId : Nat)
    (task : Task) (lst : BoardList) (board : Board)
    (hfind : db.tasks.find? (fun t => t.id == taskId) = some task)
    (hlst : db.lists.find? (fun l => l.id == task.list_id) = some lst)
    (hboard : db.boards.find? (fun b => b.id == lst.board_id) = some board) :
    (board.owner_id ≠ assigneeId →
      db.boardMembers.find? (fun m => m.board_id == lst.board_id && m.user_id == assigneeId) = none →
      assignUser db taskId assigneeId newId =
        .error (createError 400 "BAD_REQUEST" "User is not a member of this board")) ∧
    (∀ a, db.taskAssignees.find? (fun x => x.task_id == taskId && x.user_id == assigneeId) = some a →
      (board.owner_id = assigneeId ∨
        (∃ m, db.boardMembers.find?
          (fun m => m.board_id == lst.board_id && m.user_id == assigneeId) = some m)) →
      assignUser db taskId assigneeId newId =
        .error (createError 409 "CONFLICT" "User is already assigned to this task")) ∧
    (db.taskAssignees.find? (fun x => x.task_id == taskId && x.user_id == assigneeId) = none →
      unassignUser db taskId assigneeId =
        .error (createError 404 "NOT_FOUND" "Assignment not found")) := by
  refine ⟨?_, ?_, ?_⟩
  · intro hown hm
    simp [assignUser, hfind, hlst, hboard, hown, hm]
  · intro a ha hmem
    rcases hmem with h | ⟨m, hm⟩
    · simp [assignUser, hfind, hlst, hboard, h, assignUserChecked, ha]
    · by_cases hown : board.owner_id ≠ assigneeId
      · simp [assignUser, hfind, hlst, hboard, hown, hm, assignUserChecked, ha]
      · simp only [ne_eq, not_not] at hown
        simp [assignUser, hfind, hlst, hboard, hown, assignUserChecked, ha]
  · intro hnone
    simp [unassignUser, hfind, hnone]

/-- Witness for C7 on the concrete store: stranger 4 cannot be assigned
to task 10, re-assigning member 2 to task 10 conflicts, and unassigning
member 3 from task 10 hits a missing pairing. -/
theorem assign_unassign_guards_witness :
    assignUser dbW 10 4 99 =
      .error (createError 400 "BAD_REQUEST" "User is not a member of this board") ∧
    assignUser dbW 10 2 99 =
      .error (createError 409 "CONFLICT" "User is already assigned to this task") ∧
    unassignUser dbW 10 3 =
      .error (createError 404 "NOT_FOUND" "Assignment not found") :=
  ⟨(assign_unassign_guards dbW 10 4 99 ⟨10, 1, "a", 0⟩ ⟨1, 1, "To Do", 0⟩
      ⟨1, "Sprint", none, "#4472C4", 1⟩ rfl rfl rfl).1 (by decide) rfl,
   (assign_unassign_guards dbW 10 2 99 ⟨10, 1, "a", 0⟩ ⟨1, 1, "To Do", 0⟩
      ⟨1, "Sprint", none, "#4472C4", 1⟩ rfl rfl rfl).2.1 ⟨1, 10, 2⟩ rfl
      (Or.inr ⟨⟨1, 1, 2, "admin"⟩, rfl⟩),
   (assign_unassign_guards dbW 10 3 99 ⟨10, 1, "a", 0⟩ ⟨1, 1, "To Do", 0⟩
      ⟨1, "Sprint", none, "#4472C4", 1⟩ rfl rfl rfl).2.2 rfl⟩

/-- C8 counterexample: an editor member (user 3) calling `removeMember`
on the owner's id fails the permission gate first, so the call returns
403 FORBIDDEN - not the claimed 400 BAD_REQUEST. -/
theorem removeMember_owner_target_forbidden :
    removeMember dbW 1 3 1 =
      .error (createError 403 "FORBIDDEN" "Insufficient permissions to remove members") ∧
    (createError 403 "FORBIDDEN" "Insufficient permissions to remove members").code ≠
      "BAD_REQUEST" := by
  exact ⟨rfl, by decide⟩

/-- C8 (amended): when the caller passes the permission gate - they are
the board owner, or an admin member - `removeMember` targeting the
owner fails with 400 BAD_REQUEST and `addMember` with the owner's id
(whose profile exists) fails with 400 BAD_REQUEST; the error return
models the thrown exception, so the member table is unchanged. -/
theorem owner_never_member_row (db : DB) (boardId userId : Nat) (board : Board)
    (role : String) (newId : Nat) (p : Profile)
    (hb : db.boards.find? (fun b => b.id == boardId) = some board)
    (hauth : board.owner_id = userId ∨
      (∃ r, db.boardMembers.find? (fun m => m.board_id == boardId && m.user_id == userId) = some r ∧
        r.role = "admin"))
    (hprof : db.profiles.find? (fun q => q.id == board.owner_id) = some p) :
    removeMember db boardId userId board.owner_id =
      .error (createError 400 "BAD_REQUEST" "Cannot remove the board owner") ∧
    addMember db boardId userId board.owner_id role newId =
      .error (createError 400 "BAD_REQUEST" "Cannot add the board owner as a member") := by
  constructor
  · rcases hauth with h | ⟨r, hr, hrole⟩
    · simp [removeMember, hb, h, removeMemberChecked]
    · by_cases hcond : board.owner_id ≠ userId ∧ userId ≠ board.owner_id
      · simp [removeMember, hb, hcond, hr, hrole, removeMemberChecked]
      · simp [removeMember, hb, hcond, removeMemberChecked]
  · rcases hauth with h | ⟨r, hr, hrole⟩
    · subst h
      simp [addMember, hb, addMemberChecked, hprof]
    · by_cases hcond : board.owner_id ≠ userId
      · simp [addMember, hb, hcond, hr, hrole, addMemberChecked, hprof]
      · simp [addMember, hb, hcond, addMemberChecked, hprof]

/-- Witness for C8 (amended): the owner of board 1 removing themselves
and adding themselves. -/
theorem owner_never_member_row_witness :
    removeMember dbW 1 1 1 =
      .error (createError 400 "BAD_REQUEST" "Cannot remove the board owner") ∧
    addMember dbW 1 1 1 "editor" 99 =
      .error (createError 400 "BAD_REQUEST" "Cannot add the board owner as a member") :=
  owner_never_member_row dbW 1 1 ⟨1, "Sprint", none, "#4472C4", 1⟩ "editor" 99
    ⟨1, "olivia@example.com", "Olivia", "Owner", true⟩ rfl (Or.inl rfl) rfl

/-- C3: a same-scope move (list reorder via `updateList`, task move with
unchanged list) rewrites the table exactly as the spec describes: with
`new > old` the siblings in `(old, new]` step down by one, with
`new < old` the siblings in `[new, old)` step up by one, the moved
element lands on `new`, and every other row is untouched. -/
theorem same_scope_move_shifts (db : DB) (listId : Nat) (l : BoardList)
    (newLPos : Int) (taskId : Nat) (task : Task) (srcl : BoardList)
    (newTPos : Int) :
    (db.lists.find? (fun x => x.id == listId) = some l → newLPos ≠ l.position →
      updateList db listId ⟨none, some newLPos⟩ =
        .ok { db with lists :=
          db.lists.map (specShiftList listId l.board_id l.position newLPos) }) ∧
    (db.tasks.find? (fun t => t.id == taskId) = some task →
      db.lists.find? (fun x => x.id == task.list_id) = some srcl →
      moveTask db taskId ⟨task.list_id, newTPos⟩ =
        .ok { db with tasks :=
          db.tasks.map (specShiftTask taskId task.list_id task.position newTPos) }) := by
  constructor
  · intro hf hne
    simp only [updateList, hf]
    rw [if_pos hne]
    by_cases hgt : newLPos > l.position
    · rw [if_pos hgt]
      refine congrArg (fun ls => (Except.ok { db with lists := ls } : Except ApiError DB)) ?_
      rw [List.map_map]
      refine List.map_congr_left ?_
      intro x _
      by_cases hid : x.id = listId
      · simp [specShiftList, hid]
      · simp only [Function.comp_apply, specShiftList]
        try dsimp only
        split_ifs <;> first | rfl | (exfalso; omega)
    · rw [if_neg hgt]
      refine congrArg (fun ls => (Except.ok { db with lists := ls } : Except ApiError DB)) ?_
      rw [List.map_map]
      refine List.map_congr_left ?_
      intro x _
      by_cases hid : x.id = listId
      · simp [specShiftList, hid]
      · simp only [Function.comp_apply, specShiftList]
        try dsimp only
        split_ifs <;> first | rfl | (exfalso; omega)
  · intro hfind hsrc
    simp only [moveTask, hfind, hsrc]
    simp only [ne_eq, not_true_eq_false, if_false, ite_false, if_neg (by simp : ¬ srcl.board_id ≠ srcl.board_id)]
    by_cases hgt : newTPos > task.position
    · rw [if_pos hgt]
      refine congrArg (fun ts => (Except.ok { db with tasks := ts } : Except ApiError DB)) ?_
      rw [List.map_map]
      refine List.map_congr_left ?_
      intro t _
      by_cases hid : t.id = taskId
      · simp [specShiftTask, hid]
      · simp only [Function.comp_apply, specShiftTask]
        try dsimp only
        split_ifs <;> first | rfl | (exfalso; omega)
    · rw [if_neg hgt]
      by_cases hlt : newTPos < task.position
      · rw [if_pos hlt]
        refine congrArg (fun ts => (Except.ok { db with tasks := ts } : Except ApiError DB)) ?_
        rw [List.map_map]
        refine List.map_congr_left ?_
        intro t _
        by_cases hid : t.id = taskId
        · simp [specShiftTask, hid]
        · simp only [Function.comp_apply, specShiftTask]
          try dsimp only
          split_ifs <;> first | rfl | (exfalso; omega)
      · rw [if_neg hlt]
        refine congrArg (fun ts => (Except.ok { db with tasks := ts } : Except ApiError DB)) ?_
        refine List.map_congr_left ?_
        intro t _
        by_cases hid : t.id = taskId
        · simp [specShiftTask, hid]
        · simp only [specShiftTask]
          try dsimp only
          split_ifs <;> first | rfl | (exfalso; omega)

/-- Witness for C3: list 1 of board 1 is reordered from position 0 to
position 2, and task 10 moves inside list 1 from position 0 to 2. -/
theorem same_scope_move_shifts_witness :
    updateList dbW 1 ⟨none, some 2⟩ =
      .ok { dbW with lists := dbW.lists.map (specShiftList 1 1 0 2) } ∧
    moveTask dbW 10 ⟨1, 2⟩ =
      .ok { dbW with tasks := dbW.tasks.map (specShiftTask 10 1 0 2) } :=
  ⟨(same_scope_move_shifts dbW 1 ⟨1, 1, "To Do", 0⟩ 2 10 ⟨10, 1, "a", 0⟩
      ⟨1, 1, "To Do", 0⟩ 2).1 rfl (by decide),
   (same_scope_move_shifts dbW 1 ⟨1, 1, "To Do", 0⟩ 2 10 ⟨10, 1, "a", 0⟩
      ⟨1, 1, "To Do", 0⟩ 2).2 rfl rfl⟩

/-- Inserting into a list is a permutation of consing. -/
theorem insertBy_perm (le : α → α → Bool) (a : α) (l : List α) :
    List.Perm (insertBy le a l) (a :: l) := by
  induction l with
  | nil => exact List.Perm.refl _
  | cons b bs ih =>
    simp only [insertBy]
    split
    · exact List.Perm.refl _
    · exact (ih.cons b).trans (List.Perm.swap a b bs)

/-- The insertion sort modelling `orderBy` permutes its input. -/
theorem sortBy_perm (le : α → α → Bool) (l : List α) :
    List.Perm (sortBy le l) l := by
  induction l with
  | nil => exact List.Perm.refl _
  | cons a as ih => exact (insertBy_perm le a (sortBy le as)).trans (ih.cons a)

/-- C9: every profile returned by `searchUsers` belongs to a user other
than the requester and matches the trimmed, lower-cased query
case-insensitively on email, first name or last name. -/
theorem searchUsers_excludes_requester (db : DB) (query : String)
    (requesterId : Nat) (lim : Nat) (p : Profile)
    (hp : p ∈ searchUsers db query requesterId lim) :
    p.id ≠ requesterId ∧
    matchesQuery ((trimCodes (codes query)).map asciiLower) p = true := by
  simp only [searchUsers] at hp
  have hp2 := List.take_subset _ _ hp
  have hp3 := (sortBy_perm _ _).mem_iff.mp hp2
  have hp4 := List.mem_filter.mp hp3
  have := hp4.2
  simp only [Bool.and_eq_true, bne_iff_ne, ne_eq] at this
  exact ⟨this.1.1, this.2⟩

/-- Witness for C9: searching "Ali" as user 1 yields Alice (user 5). -/
theorem searchUsers_excludes_requester_witness :
    (⟨5, "alice@example.com", "Alice", "Johnson", true⟩ : Profile).id ≠ 1 ∧
    matchesQuery ((trimCodes (codes ("Ali"))).map asciiLower)
      ⟨5, "alice@example.com", "Alice", "Johnson", true⟩ = true :=
  searchUsers_excludes_requester dbW "Ali" 1 10
    ⟨5, "alice@example.com", "Alice", "Johnson", true⟩ (by decide)

/-- Occurrence count of an integer in the dense range. -/
theorem count_rangeInt (n : Nat) (a : Int) :
    (rangeInt n).count a = if 0 ≤ a ∧ a < (n : Int) then 1 else 0 := by
  induction n with
  | zero =>
    have h0 : rangeInt 0 = [] := by simp [rangeInt]
    rw [h0, List.count_nil]
    split_ifs <;> omega
  | succ n ih =>
    have hsplit : rangeInt (n + 1) = rangeInt n ++ [(n : Int)] := by
      simp [rangeInt, List.range_succ]
    rw [hsplit, List.count_append, ih]
    have hone : List.count a [(n : Int)] = if a = (n : Int) then 1 else 0 := by
      by_cases h : a = (n : Int) <;> simp [h, List.count_cons]
    rw [hone]
    split_ifs <;> omega

/-- Counting after a map is counting the preimages. -/
theorem count_map_int (f : Int → Int) (l : List Int) (a : Int) :
    (l.map f).count a = l.countP (fun p => f p == a) := by
  induction l with
  | nil => rfl
  | cons x xs ih =>
    simp only [List.map_cons, List.count_cons, List.countP_cons, ih]

/-- Below the erased position the gap-closing shift counts like the
identity. -/
theorem countP_shift_lt (old a : Int) (h : a < old) (l : List Int) :
    l.countP (fun p => shiftDown old p == a) = l.count a := by
  induction l with
  | nil => rfl
  | cons x xs ih =>
    rw [List.countP_cons, List.count_cons, ih]
    have : (if (shiftDown old x == a) = true then (1 : Nat) else 0) =
        (if (x == a) = true then 1 else 0) := by
      simp only [shiftDown, beq_iff_eq]
      split_ifs <;> omega
    omega

/-- At the erased position the gap-closing shift collects the old
position and its successor. -/
theorem countP_shift_eq (old : Int) (l : List Int) :
    l.countP (fun p => shiftDown old p == old) =
      l.count old + l.count (old + 1) := by
  induction l with
  | nil => rfl
  | cons x xs ih =>
    rw [List.countP_cons, List.count_cons, List.count_cons, ih]
    have : (if (shiftDown old x == old) = true then (1 : Nat) else 0) =
        (if (x == old) = true then 1 else 0) + (if (x == old + 1) = true then 1 else 0) := by
      simp only [shiftDown, beq_iff_eq]
      split_ifs <;> omega
    omega

/-- Above the erased position the gap-closing shift counts the
successor. -/
theorem countP_shift_gt (old a : Int) (h : old < a) (l : List Int) :
    l.countP (fun p => shiftDown old p == a) = l.count (a + 1) := by
  induction l with
  | nil => rfl
  | cons x xs ih =>
    rw [List.countP_cons, List.count_cons, ih]
    have : (if (shiftDown old x == a) = true then (1 : Nat) else 0) =
        (if (x == a + 1) = true then 1 else 0) := by
      simp only [shiftDown, beq_iff_eq]
      split_ifs <;> omega
    omega

/-- Removing the element at position `old` from a dense range of `n`
positions and closing the gap yields the dense range of `n - 1`
positions. -/
theorem closeGapPerm (old : Int) (n : Nat) (rest : List Int)
    (h : List.Perm (old :: rest) (rangeInt n)) :
    List.Perm (rest.map (shiftDown old)) (rangeInt (n - 1)) := by
  have hcount := List.perm_iff_count.mp h
  have hold : 0 ≤ old ∧ old < (n : Int) := by
    have h1 := hcount old
    rw [count_rangeInt, List.count_cons_self] at h1
    split at h1
    · assumption
    · omega
  rw [List.perm_iff_count]
  intro a
  rw [count_rangeInt, count_map_int]
  rcases lt_trichotomy a old with hlt | heq | hgt
  · rw [countP_shift_lt old a hlt]
    have h2 := hcount a
    rw [count_rangeInt, List.count_cons] at h2
    have hne : (old == a) = false := by
      simp only [beq_eq_false_iff_ne, ne_eq]
      omega
    simp only [hne, Bool.false_eq_true, if_false] at h2
    split_ifs at h2 ⊢ <;> omega
  · subst heq
    rw [countP_shift_eq]
    have h2 := hcount a
    rw [count_rangeInt, List.count_cons_self] at h2
    have h3 := hcount (a + 1)
    rw [count_rangeInt, List.count_cons] at h3
    have hne : (a == a + 1) = false := by
      simp only [beq_eq_false_iff_ne, ne_eq]
      omega
    simp only [hne, Bool.false_eq_true, if_false] at h3
    split_ifs at h2 h3 ⊢ <;> omega
  · rw [countP_shift_gt old a hgt]
    have h3 := hcount (a + 1)
    rw [count_rangeInt, List.count_cons] at h3
    have hne : (old == a + 1) = false := by
      simp only [beq_eq_false_iff_ne, ne_eq]
      omega
    simp only [hne, Bool.false_eq_true, if_false] at h3
    split_ifs at h3 ⊢ <;> omega

/-- In a table with pairwise distinct ids, filtering by the id of a
member singles out exactly that row. -/
theorem filter_key_unique (l : List Task) (task : Task) (taskId : Nat)
    (hids : (l.map Task.id).Nodup) (hmem : task ∈ l) (hid : task.id = taskId) :
    l.filter (fun t => t.id == taskId) = [task] := by
  induction l with
  | nil => cases hmem
  | cons x xs ih =>
    rw [List.map_cons, List.nodup_cons] at hids
    rcases List.mem_cons.mp hmem with rfl | hmem2
    · have hnone : xs.filter (fun t => t.id == taskId) = [] := by
        rw [List.filter_eq_nil_iff]
        intro t ht
        simp only [beq_iff_eq]
        intro habs
        apply hids.1
        rw [hid, ← habs]
        exact List.mem_map_of_mem Task.id ht
      rw [List.filter_cons]
      simp [hid, hnone]
    · have hxne : (x.id == taskId) = false := by
        simp only [beq_eq_false_iff_ne, ne_eq]
        intro habs
        exact hids.1 (by
          rw [habs, ← hid]
          exact List.mem_map_of_mem Task.id hmem2)
      rw [List.filter_cons, hxne]
      simp only [Bool.false_eq_true, if_false]
      exact ih hids.2 hmem2

/-- C4: a task move to a different list of the same board decrements
every source-list sibling above the old position, increments every
target-list sibling at or above the requested position, lands the task
in the target list at the requested position, and in particular turns a
dense source list of `n` positions into a dense list of `n - 1`
positions - no orphaned position remains. -/
theorem cross_list_move (db : DB) (taskId : Nat) (task : Task)
    (srcl tgtl : BoardList) (data : MoveTaskData) (n : Nat)
    (hfind : db.tasks.find? (fun t => t.id == taskId) = some task)
    (hsrc : db.lists.find? (fun l => l.id == task.list_id) = some srcl)
    (htgt : db.lists.find? (fun l => l.id == data.list_id) = some tgtl)
    (hboard : tgtl.board_id = srcl.board_id)
    (hcross : task.list_id ≠ data.list_id)
    (hids : (db.tasks.map Task.id).Nodup)
    (hdense : List.Perm (taskPositionsInList db task.list_id) (rangeInt n)) :
    moveTask db taskId data =
      .ok { db with tasks := (db.tasks.map
        (specCrossMove taskId task.list_id data.list_id task.position data.position)) } ∧
    List.Perm
      (taskPositionsInList
        { db with tasks := (db.tasks.map
          (specCrossMove taskId task.list_id data.list_id task.position data.position)) }
        task.list_id)
      (rangeInt (n - 1)) := by
  have htid : task.id = taskId := by
    have := List.find?_some hfind
    simpa [beq_iff_eq] using this
  constructor
  · simp only [moveTask, hfind, hsrc, htgt]
    rw [if_neg (by simp [hboard] : ¬ tgtl.board_id ≠ srcl.board_id)]
    rw [if_pos hcross, if_pos hcross]
    refine congrArg (fun ts => (Except.ok { db with tasks := ts } : Except ApiError DB)) ?_
    rw [List.map_map, List.map_map]
    refine List.map_congr_left ?_
    intro t _
    by_cases hid : t.id = taskId
    · simp only [Function.comp_apply, specCrossMove, hid, if_true]
      split_ifs <;> simp_all
    · simp only [Function.comp_apply, specCrossMove]
      try dsimp only
      split_ifs <;> first | rfl | (exfalso; (try simp only [] at *); omega)
  · set F := specCrossMove taskId task.list_id data.list_id task.position data.position with hF
    have hstep1 : taskPositionsInList { db with tasks := db.tasks.map F } task.list_id =
        ((db.tasks.filter (fun t => (t.list_id == task.list_id) && !(t.id == taskId))).map F).map
          (fun t => t.position) := by
      simp only [taskPositionsInList]
      rw [List.filter_map]
      congr 1
      refine congrArg (List.map F) ?_
      refine List.filter_congr ?_
      intro t _
      by_cases hid : t.id = taskId
      · simp [hF, specCrossMove, hid, Function.comp_apply]
        omega
      · simp only [Function.comp_apply, hF, specCrossMove, hid]
        try dsimp only
        split_ifs <;> simp_all
    have hstep2 : ((db.tasks.filter (fun t => (t.list_id == task.list_id) && !(t.id == taskId))).map F).map
          (fun t => t.position) =
        ((db.tasks.filter (fun t => (t.list_id == task.list_id) && !(t.id == taskId))).map
          (fun t => t.position)).map (shiftDown task.position) := by
      rw [List.map_map, List.map_map]
      refine List.map_congr_left ?_
      intro t ht
      have ht2 := (List.mem_filter.mp ht).2
      simp only [Bool.and_eq_true, beq_iff_eq, Bool.not_eq_true', beq_eq_false_iff_ne, ne_eq] at ht2
      simp only [Function.comp_apply, hF, specCrossMove, shiftDown, ht2.2, if_false]
      split_ifs <;> first | rfl | (exfalso; omega)
    have hsplit : List.Perm
        (db.tasks.filter (fun t => t.list_id == task.list_id))
        (task :: db.tasks.filter (fun t => (t.list_id == task.list_id) && !(t.id == taskId))) := by
      have hmem : task ∈ db.tasks := List.mem_of_find?_eq_some hfind
      have hsubids : ((db.tasks.filter (fun t => t.list_id == task.list_id)).map Task.id).Nodup :=
        ((List.filter_sublist db.tasks).map Task.id).nodup hids
      have hmem2 : task ∈ db.tasks.filter (fun t => t.list_id == task.list_id) :=
        List.mem_filter.mpr ⟨hmem, by simp⟩
      have hone : (db.tasks.filter (fun t => t.list_id == task.list_id)).filter
          (fun t => t.id == taskId) = [task] :=
        filter_key_unique _ task taskId hsubids hmem2 htid
      have hperm := List.filter_append_perm (fun t => t.id == taskId)
        (db.tasks.filter (fun t => t.list_id == task.list_id))
      rw [hone] at hperm
      have hff : (db.tasks.filter (fun t => t.list_id == task.list_id)).filter
            (fun t => !(t.id == taskId)) =
          db.tasks.filter (fun t => (t.list_id == task.list_id) && !(t.id == taskId)) := by
        rw [List.filter_filter]
        refine List.filter_congr ?_
        intro t _
        rw [Bool.and_comm]
      rw [hff] at hperm
      exact hperm.symm
    have hbefore : List.Perm
        (task.position :: ((db.tasks.filter (fun t => (t.list_id == task.list_id) && !(t.id == taskId))).map
          (fun t => t.position)))
        (rangeInt n) := by
      have hmap := hsplit.map (fun t => t.position)
      simp only [taskPositionsInList] at hdense
      simp only [List.map_cons] at hmap
      exact hmap.symm.trans hdense
    rw [hstep1, hstep2]
    exact closeGapPerm task.position n _ hbefore

/-- Witness for C4: task 10 moves from list 1 (dense positions 0, 1, 2)
to position 1 of list 2 on the same board; list 1 ends up dense on
positions 0, 1. -/
theorem cross_list_move_witness :
    moveTask dbW 10 ⟨2, 1⟩ =
      .ok { dbW with tasks := (dbW.tasks.map (specCrossMove 10 1 2 0 1)) } ∧
    List.Perm
      (taskPositionsInList { dbW with tasks := (dbW.tasks.map (specCrossMove 10 1 2 0 1)) } 1)
      (rangeInt 2) :=
  cross_list_move dbW 10 ⟨10, 1, "a", 0⟩ ⟨1, 1, "To Do", 0⟩ ⟨2, 1, "In Progress", 1⟩
    ⟨2, 1⟩ 3 rfl rfl rfl rfl (by decide) (by decide) (by decide)

end Kanban
